import Mathlib

/-!
# Shallow embedding of the Retell appointment-scheduling backend

This file embeds the core scheduling logic of
`src/Retell-API/retellAPI/retellAPI/views/API.py` together with the data
model of `src/Retell-API/retellAPI/retellAPI/models.py`, and proves /
refutes the frozen claims about it.

Modelling conventions:
* Datetimes are whole minutes since a fixed epoch that falls on a Monday
  at 00:00 (Python `datetime` values in this code base are compared,
  subtracted, and built from date + time-of-day; whole-minute granularity
  matches the `TimeField`/duration arithmetic of the source).
  A calendar date is the day index `t / 1440` (floor), and
  `weekday = dayIndex % 7` with Monday = 0, exactly Python's
  `datetime.weekday()` under the Monday-epoch convention.
* Python falsiness of string arguments (`if not patientName`) is modelled
  by the empty string; a missing optional string argument is likewise `""`.
* `args.get("durationMinutes", 30)` followed by `int(...)` with a
  `TypeError/ValueError` fallback to 30 is modelled as an `Option Int`
  whose `none` covers "missing or not convertible to int".
* A datetime-string argument is modelled by `TimeArg`: `missing` covers
  absent/empty (falsy) strings, `malformed s` a present string rejected by
  `datetime.fromisoformat`, `valid t` a string parsing to instant `t`.
* Database rows live in lists inside a `DB` record; Django's
  auto-increment primary keys are modelled by `nextPatientId` /
  `nextAppointmentId` counters (ids start at 1).
* An uncaught Python exception (`NameError`, `IntegrityError`) is the
  `ApiResult.exn` outcome; a `{"success": false, ...}` return is
  `ApiResult.failure`; a `{"success": true, ...}` return is
  `ApiResult.success` with the payload fields of the returned dict.
-/

/-- `Appointment.status` values (`models.py`, `STATUS_CHOICES`). -/
inductive Status
  | BOOKED
  | CANCELLED
  | RESCHEDULED
  | COMPLETED
deriving Repr, DecidableEq

/-- `AuditLog.actionType` values used by the API layer. -/
inductive ActionType
  | BOOK
  | CANCEL
  | RESCHEDULE
  | GET_SLOTS
deriving Repr, DecidableEq

/-- `Patient` model: `patientName`, `patientPhone` (unique). -/
structure Patient where
  id : Nat
  patientName : String
  patientPhone : String
deriving Repr, DecidableEq

/-- `Doctor` model: `name`, `specialty`. -/
structure Doctor where
  id : Nat
  name : String
  specialty : String
deriving Repr, DecidableEq

/-- `DoctorWorkingHours` model: weekday row with start/end times of day
(in minutes from midnight). -/
structure DoctorWorkingHours where
  doctorId : Nat
  dayOfWeek : Int
  startTime : Int
  endTime : Int
deriving Repr, DecidableEq

/-- `Appointment` model (absolute times in minutes since the epoch). -/
structure Appointment where
  id : Nat
  patientId : Nat
  doctorId : Nat
  patientName : String
  patientPhone : String
  startTime : Int
  endTime : Int
  status : Status
deriving Repr, DecidableEq

/-- `AuditLog` model: append-only action records with nullable refs. -/
structure AuditLog where
  actionType : ActionType
  appointmentId : Option Nat
  patientId : Option Nat
  doctorId : Option Nat
deriving Repr, DecidableEq

/-- The persistent store: one list per Django model, plus the
auto-increment counters for the two tables the API inserts into. -/
structure DB where
  patients : List Patient
  doctors : List Doctor
  workingHours : List DoctorWorkingHours
  appointments : List Appointment
  auditLogs : List AuditLog
  nextPatientId : Nat
  nextAppointmentId : Nat
deriving Repr, DecidableEq

/-- The calendar date (day index) of an absolute time, Python
`datetime.date()`: floor division by minutes-per-day. -/
def dateOf (t : Int) : Int := Int.fdiv t 1440

/-- Python `date.weekday()` (Monday = 0) under the Monday-epoch
convention. -/
def weekdayOf (dateObj : Int) : Int := Int.emod dateObj 7

/-- `datetime.combine(dateObj, timeOfDay)` in minutes. -/
def combineDT (dateObj timeOfDay : Int) : Int := dateObj * 1440 + timeOfDay

/-- The distinct error returns (`{"success": false, "error": ...}`) of the
four logic functions, one constructor per distinct message of the source;
`errMessage` renders the exact source text. -/
inductive ApiError
  | missingBookFields
  | invalidStartTime (s : String)
  | doctorNotFound (doctorName specialty : String)
  | notWorking
  | outsideHours
  | conflict
  | appointmentIdRequired
  | appointmentNotFound
  | missingRescheduleFields
  | invalidNewStartTime (s : String)
  | cannotRescheduleCancelled
  | newTimeOutsideHours
  | newTimeConflict
  | dateRequired
  | invalidDate (s : String)
deriving Repr, DecidableEq

/-- The exact `"error"` strings of the source, for reference. -/
def errMessage : ApiError → String
  | .missingBookFields => "Missing required fields: patientName and startTime."
  | .invalidStartTime s => "Invalid datetime format for startTime: " ++ s
  | .doctorNotFound n sp =>
      "No doctor found for doctorName=\x27" ++ n ++ "\x27 and specialty=\x27" ++ sp ++ "\x27."
  | .notWorking => "Doctor is not working on this day."
  | .outsideHours => "Requested time is outside doctor\x27s working hours."
  | .conflict => "Requested time slot is not available for this doctor."
  | .appointmentIdRequired => "appointmentId is required."
  | .appointmentNotFound => "Appointment not found."
  | .missingRescheduleFields => "appointmentId and newStartTime are required."
  | .invalidNewStartTime s => "Invalid datetime format for newStartTime: " ++ s
  | .cannotRescheduleCancelled => "Cannot reschedule a cancelled appointment."
  | .newTimeOutsideHours => "Requested new time is outside doctor\x27s working hours."
  | .newTimeConflict => "Requested new time slot is not available for this doctor."
  | .dateRequired => "date is required (YYYY-MM-DD)."
  | .invalidDate s => "Invalid date format (expected YYYY-MM-DD): " ++ s

/-- Outcome of a logic function: the returned dict (`success`/`failure`)
or an uncaught Python exception (`exn`). -/
inductive ApiResult (α : Type)
  | success (payload : α)
  | failure (e : ApiError)
  | exn (e : String)
deriving Repr, DecidableEq

/-- A datetime-string argument as it reaches `parseIsoDatetime`:
absent or falsy, present but unparsable, or parsing to instant `t`. -/
inductive TimeArg
  | missing
  | malformed (s : String)
  | valid (t : Int)
deriving Repr, DecidableEq

/-- `doctorHasConflict` (API.py, lines 21-37): any `BOOKED` appointment of
the doctor with `startTime < endTime` and `endTime > startTime` of the
candidate interval, excluding `ignoreAppointmentId` when given. -/
def doctorHasConflict (db : DB) (doctorId : Nat) (startTime endTime : Int)
    (ignoreAppointmentId : Option Nat) : Bool :=
  db.appointments.any fun a =>
    a.doctorId == doctorId && a.status == Status.BOOKED &&
    decide (a.startTime < endTime) && decide (a.endTime > startTime) &&
    (match ignoreAppointmentId with
     | none => true
     | some i => a.id != i)

/-- One emitted free slot (`startTime`/`endTime` dict of the source). -/
structure Slot where
  startTime : Int
  endTime : Int
deriving Repr, DecidableEq

/-- The loop of `buildFreeSlots` (API.py, lines 49-59). Line 51 of the
source reads `gap = (busStart - current).total_seconds() / 60.0` where
`busStart` is an undefined name (the loop variable is `busyStart`), so the
first iteration whose busy interval starts strictly after the cursor
raises `NameError` at runtime; this is modelled by the `.error` outcome. -/
def buildFreeSlotsLoop (current : Int) (busyIntervals : List (Int × Int)) :
    Except String (Int × List Slot) :=
  match busyIntervals with
  | [] => .ok (current, [])
  | (busyStart, busyEnd) :: rest =>
    if busyStart > current then
      .error "NameError: name \x27busStart\x27 is not defined"
    else
      buildFreeSlotsLoop (if busyEnd > current then busyEnd else current) rest

/-- `buildFreeSlots` (API.py, lines 39-70): sweep the busy intervals, then
check the trailing gap `[current, dayEnd)` and emit one slot if its length
is at least `durationMinutes`. -/
def buildFreeSlots (dayStart dayEnd : Int) (busyIntervals : List (Int × Int))
    (durationMinutes : Int) : Except String (List Slot) :=
  match buildFreeSlotsLoop dayStart busyIntervals with
  | .error e => .error e
  | .ok (current, slots) =>
    if dayEnd > current then
      if dayEnd - current ≥ durationMinutes then
        .ok (slots ++ [⟨current, current + durationMinutes⟩])
      else .ok slots
    else .ok slots

/-- Modelled from the spec: the free-slot algorithm of §4.4 — what
`buildFreeSlots` computes once the `busStart` typo on line 51 is read as
the loop variable `busyStart`. For each busy interval starting after the
cursor, emit one slot per gap of sufficient length, then handle the
trailing gap. -/
def buildFreeSlotsSpec (dayStart dayEnd : Int) (busyIntervals : List (Int × Int))
    (durationMinutes : Int) : List Slot :=
  let rec loop (current : Int) : List (Int × Int) → Int × List Slot
    | [] => (current, [])
    | (busyStart, busyEnd) :: rest =>
      let emitted : List Slot :=
        if busyStart > current ∧ busyStart - current ≥ durationMinutes then
          [⟨current, current + durationMinutes⟩]
        else []
      let next := loop (if busyEnd > current then busyEnd else current) rest
      (next.1, emitted ++ next.2)
  let (current, slots) := loop dayStart busyIntervals
  if dayEnd > current ∧ dayEnd - current ≥ durationMinutes then
    slots ++ [⟨current, current + durationMinutes⟩]
  else slots

/-- `getOrCreatePatient` (API.py, lines 72-84). With a falsy phone it
unconditionally inserts a fresh `Patient` with the placeholder phone
`"UNKNOWN-" ++ patientName`; since `Patient.patientPhone` carries
`unique=True` (models.py line 7), that insert raises `IntegrityError`
when a row with the same placeholder already exists. With a phone it is
`get_or_create` by phone, renaming on a name mismatch. -/
def getOrCreatePatient (db : DB) (patientName patientPhone : String) :
    Except String (Patient × DB) :=
  if patientPhone = "" then
    let phone := "UNKNOWN-" ++ patientName
    if db.patients.any (fun p => p.patientPhone == phone) then
      .error "IntegrityError: UNIQUE constraint failed: retellAPI_patient.patientPhone"
    else
      let p : Patient := ⟨db.nextPatientId, patientName, phone⟩
      .ok (p, { db with patients := db.patients ++ [p],
                        nextPatientId := db.nextPatientId + 1 })
  else
    match db.patients.find? (fun p => p.patientPhone == patientPhone) with
    | some p =>
      if p.patientName ≠ patientName then
        let p2 : Patient := { p with patientName := patientName }
        let ps := db.patients.map (fun q => if q.id == p.id then p2 else q)
        .ok (p2, { db with patients := ps })
      else .ok (p, db)
    | none =>
      let p : Patient := ⟨db.nextPatientId, patientName, patientPhone⟩
      .ok (p, { db with patients := db.patients ++ [p],
                        nextPatientId := db.nextPatientId + 1 })

/-- `pickDoctor` (API.py, lines 86-100). Note the fall-through: when a
name (with or without specialty) matches nothing, control reaches the
specialty-only lookup. -/
def pickDoctor (db : DB) (doctorName specialty : String) : Option Doctor :=
  let fromName : Option Doctor :=
    if doctorName ≠ "" then
      (if specialty ≠ "" then
        db.doctors.filter (fun d => d.name == doctorName && d.specialty == specialty)
       else
        db.doctors.filter (fun d => d.name == doctorName)).head?
    else none
  match fromName with
  | some d => some d
  | none =>
    if specialty ≠ "" then
      (db.doctors.filter (fun d => d.specialty == specialty)).head?
    else none

/-- `getWorkingWindowForDoctor` (API.py, lines 102-114): the working-hours
rows of the doctor for the date's weekday, anchored to the date; `none`
when no row matches (`rows.exists()` is false). -/
def getWorkingWindowForDoctor (db : DB) (doctorId : Nat) (dateObj : Int) :
    Option (List (Int × Int)) :=
  let rows := db.workingHours.filter
    (fun r => r.doctorId == doctorId && r.dayOfWeek == weekdayOf dateObj)
  if rows.isEmpty then none
  else some (rows.map (fun r => (combineDT dateObj r.startTime, combineDT dateObj r.endTime)))

/-- Arguments of `bookAppointmentLogic` as they arrive from the request
handler; `""` models a missing or empty (falsy) string argument. -/
structure BookArgs where
  patientName : String
  patientPhone : String
  doctorName : String
  specialty : String
  startTime : TimeArg
  durationMinutes : Option Int
deriving Repr, DecidableEq

/-- Arguments of `cancelAppointmentLogic`. -/
structure CancelArgs where
  appointmentId : Option Nat
deriving Repr, DecidableEq

/-- Arguments of `rescheduleAppointmentLogic`. -/
structure RescheduleArgs where
  appointmentId : Option Nat
  newStartTime : TimeArg
  durationMinutes : Option Int
deriving Repr, DecidableEq

/-- Arguments of `getAvailableSlotsLogic`; a `valid d` date argument
parses to the day index `d`. -/
structure SlotsArgs where
  doctorName : String
  specialty : String
  date : TimeArg
  durationMinutes : Option Int
deriving Repr, DecidableEq

/-- Success payload of `bookAppointmentLogic` (API.py, lines 203-213). -/
structure BookPayload where
  message : String
  appointmentId : Nat
  patientId : Nat
  doctorId : Nat
  doctorName : String
  specialty : String
  startTime : Int
  endTime : Int
deriving Repr, DecidableEq

/-- Success payload of `cancelAppointmentLogic`. -/
structure CancelPayload where
  message : String
  appointmentId : Nat
deriving Repr, DecidableEq

/-- Success payload of `rescheduleAppointmentLogic`. -/
structure ReschedulePayload where
  message : String
  appointmentId : Nat
  newStartTime : Int
  newEndTime : Int
  doctorId : Nat
  doctorName : String
deriving Repr, DecidableEq

/-- Success payload of `getAvailableSlotsLogic`. -/
structure SlotsPayload where
  doctorId : Nat
  doctorName : String
  specialty : String
  date : Int
  durationMinutes : Int
  slots : List Slot
deriving Repr, DecidableEq

/-- `bookAppointmentLogic` (API.py, lines 120-213), with the source's
check order: required fields, datetime parse, duration fallback, doctor
resolution, working-day, working-hours containment, conflict, then
patient lookup/creation and the appointment + BOOK-audit insert. -/
def bookAppointmentLogic (args : BookArgs) (db : DB) : ApiResult BookPayload × DB :=
  if args.patientName = "" then (.failure .missingBookFields, db)
  else match args.startTime with
  | .missing => (.failure .missingBookFields, db)
  | .malformed s => (.failure (.invalidStartTime s), db)
  | .valid startTime =>
    let durationMinutes := args.durationMinutes.getD 30
    let endTime := startTime + durationMinutes
    match pickDoctor db args.doctorName args.specialty with
    | none => (.failure (.doctorNotFound args.doctorName args.specialty), db)
    | some doctor =>
      match getWorkingWindowForDoctor db doctor.id (dateOf startTime) with
      | none => (.failure .notWorking, db)
      | some workingIntervals =>
        if ! workingIntervals.any
            (fun iv => decide (startTime ≥ iv.1) && decide (endTime ≤ iv.2)) then
          (.failure .outsideHours, db)
        else if doctorHasConflict db doctor.id startTime endTime none then
          (.failure .conflict, db)
        else
          match getOrCreatePatient db args.patientName args.patientPhone with
          | .error e => (.exn e, db)
          | .ok (patient, db1) =>
            let appointment : Appointment :=
              ⟨db1.nextAppointmentId, patient.id, doctor.id, patient.patientName,
               patient.patientPhone, startTime, endTime, Status.BOOKED⟩
            let db2 := { db1 with
              appointments := db1.appointments ++ [appointment],
              nextAppointmentId := db1.nextAppointmentId + 1,
              auditLogs := db1.auditLogs ++
                [⟨ActionType.BOOK, some appointment.id, some patient.id, some doctor.id⟩] }
            (.success ⟨"Appointment booked successfully.", appointment.id, patient.id,
                       doctor.id, doctor.name, doctor.specialty, startTime, endTime⟩, db2)

/-- `cancelAppointmentLogic` (API.py, lines 215-254). `if not
appointmentId` is falsy for both `None` and `0`. -/
def cancelAppointmentLogic (args : CancelArgs) (db : DB) : ApiResult CancelPayload × DB :=
  match args.appointmentId with
  | none => (.failure .appointmentIdRequired, db)
  | some appointmentId =>
    if appointmentId == 0 then (.failure .appointmentIdRequired, db)
    else match db.appointments.find? (fun a => a.id == appointmentId) with
    | none => (.failure .appointmentNotFound, db)
    | some appointment =>
      if appointment.status == Status.CANCELLED then
        (.success ⟨"Appointment already cancelled.", appointment.id⟩, db)
      else
        let updated : Appointment := { appointment with status := Status.CANCELLED }
        let db2 := { db with
          appointments :=
            db.appointments.map (fun a => if a.id == appointmentId then updated else a),
          auditLogs := db.auditLogs ++
            [⟨ActionType.CANCEL, some appointment.id, some appointment.patientId,
              some appointment.doctorId⟩] }
        (.success ⟨"Appointment cancelled.", appointment.id⟩, db2)

/-- `rescheduleAppointmentLogic` (API.py, lines 256-345), preserving the
source's check order: required fields, appointment lookup, datetime
parse, duration fallback, CANCELLED guard, working-day, containment,
conflict excluding the appointment's own id, then the update + audit. -/
def rescheduleAppointmentLogic (args : RescheduleArgs) (db : DB) :
    ApiResult ReschedulePayload × DB :=
  if (match args.appointmentId with | none => true | some i => i == 0)
      || args.newStartTime == TimeArg.missing then
    (.failure .missingRescheduleFields, db)
  else match args.appointmentId with
  | none => (.failure .missingRescheduleFields, db)
  | some appointmentId =>
    match db.appointments.find? (fun a => a.id == appointmentId) with
    | none => (.failure .appointmentNotFound, db)
    | some appointment =>
      match args.newStartTime with
      | .missing => (.failure .missingRescheduleFields, db)
      | .malformed s => (.failure (.invalidNewStartTime s), db)
      | .valid newStart =>
        let durationMinutes := args.durationMinutes.getD 30
        let newEnd := newStart + durationMinutes
        if appointment.status == Status.CANCELLED then
          (.failure .cannotRescheduleCancelled, db)
        else
          match getWorkingWindowForDoctor db appointment.doctorId (dateOf newStart) with
          | none => (.failure .notWorking, db)
          | some workingIntervals =>
            if ! workingIntervals.any
                (fun iv => decide (newStart ≥ iv.1) && decide (newEnd ≤ iv.2)) then
              (.failure .newTimeOutsideHours, db)
            else if doctorHasConflict db appointment.doctorId newStart newEnd
                (some appointment.id) then
              (.failure .newTimeConflict, db)
            else
              let updated : Appointment := { appointment with
                startTime := newStart, endTime := newEnd, status := Status.BOOKED }
              let doctorName :=
                ((db.doctors.find? (fun d => d.id == appointment.doctorId)).map
                  Doctor.name).getD ""
              let db2 := { db with
                appointments :=
                  db.appointments.map (fun a => if a.id == appointmentId then updated else a),
                auditLogs := db.auditLogs ++
                  [⟨ActionType.RESCHEDULE, some appointment.id, some appointment.patientId,
                    some appointment.doctorId⟩] }
              (.success ⟨"Appointment rescheduled.", appointment.id, newStart, newEnd,
                         appointment.doctorId, doctorName⟩, db2)

/-- Stable insertion of a busy interval into a start-sorted list,
modelling the SQL `ORDER BY startTime` of the busy-appointment query. -/
def insertByStart (x : Int × Int) : List (Int × Int) → List (Int × Int)
  | [] => [x]
  | y :: ys => if x.1 < y.1 then x :: y :: ys else y :: insertByStart x ys

/-- Sort busy intervals by start time (insertion sort, stable). -/
def sortByStart (l : List (Int × Int)) : List (Int × Int) :=
  l.foldr insertByStart []

/-- The `slots.extend(buildFreeSlots(...))` loop of
`getAvailableSlotsLogic`: one `buildFreeSlots` call per working interval,
concatenated; an exception inside a call aborts the whole loop. -/
def collectSlots (workingIntervals : List (Int × Int)) (busy : List (Int × Int))
    (durationMinutes : Int) : Except String (List Slot) :=
  match workingIntervals with
  | [] => .ok []
  | (dayStart, dayEnd) :: rest =>
    match buildFreeSlots dayStart dayEnd busy durationMinutes with
    | .error e => .error e
    | .ok slots =>
      match collectSlots rest busy durationMinutes with
      | .error e => .error e
      | .ok more => .ok (slots ++ more)

/-- `getAvailableSlotsLogic` (API.py, lines 347-412): date parse,
duration fallback, doctor resolution, working-day, busy-interval
gathering (BOOKED, same doctor, start on the target date, sorted by
start), per-interval free-slot computation, GET_SLOTS audit. -/
def getAvailableSlotsLogic (args : SlotsArgs) (db : DB) : ApiResult SlotsPayload × DB :=
  match args.date with
  | .missing => (.failure .dateRequired, db)
  | .malformed s => (.failure (.invalidDate s), db)
  | .valid dateObj =>
    let durationMinutes := args.durationMinutes.getD 30
    match pickDoctor db args.doctorName args.specialty with
    | none => (.failure (.doctorNotFound args.doctorName args.specialty), db)
    | some doctor =>
      match getWorkingWindowForDoctor db doctor.id dateObj with
      | none => (.failure .notWorking, db)
      | some workingIntervals =>
        let busyIntervals := sortByStart
          ((db.appointments.filter (fun a =>
              a.doctorId == doctor.id && a.status == Status.BOOKED &&
              dateOf a.startTime == dateObj)).map
            (fun a => (a.startTime, a.endTime)))
        match collectSlots workingIntervals busyIntervals durationMinutes with
        | .error e => (.exn e, db)
        | .ok slots =>
          let db2 := { db with auditLogs := db.auditLogs ++
            [⟨ActionType.GET_SLOTS, none, none, some doctor.id⟩] }
          (.success ⟨doctor.id, doctor.name, doctor.specialty, dateObj,
                     durationMinutes, slots⟩, db2)

/-- Modelled from the spec: the doctor-resolution rule exactly as claim
C8 words it — with both name and specialty given only the exact pair
match is consulted, with only a name the name match, with only a
specialty the specialty match; no fall-through. Stated for comparison
with the source's `pickDoctor`. -/
def pickDoctorClaimed (db : DB) (doctorName specialty : String) : Option Doctor :=
  if doctorName ≠ "" && specialty ≠ "" then
    (db.doctors.filter (fun d => d.name == doctorName && d.specialty == specialty)).head?
  else if doctorName ≠ "" then
    (db.doctors.filter (fun d => d.name == doctorName)).head?
  else if specialty ≠ "" then
    (db.doctors.filter (fun d => d.specialty == specialty)).head?
  else none

/-- Doctor resolution as `pickDoctor` actually behaves (the amended form
of claim C8): when both name and specialty are given, the exact pair
match is tried first and the specialty-only match is the fallback when it
yields nothing. -/
def pickDoctorAmended (db : DB) (doctorName specialty : String) : Option Doctor :=
  if doctorName ≠ "" && specialty ≠ "" then
    match (db.doctors.filter
        (fun d => d.name == doctorName && d.specialty == specialty)).head? with
    | some d => some d
    | none => (db.doctors.filter (fun d => d.specialty == specialty)).head?
  else if doctorName ≠ "" then
    (db.doctors.filter (fun d => d.name == doctorName)).head?
  else if specialty ≠ "" then
    (db.doctors.filter (fun d => d.specialty == specialty)).head?
  else none

/-- A seeded store in the style of `initdb`: one doctor working
Monday 09:00-17:00 (minutes 540-1020 of day 0), no appointments. -/
def demoDB : DB :=
  ⟨[], [⟨1, "Dr Sarah", "General"⟩], [⟨1, 0, 540, 1020⟩], [], [], 1, 1⟩

/-- A store whose only doctor has specialty "S" but a name that matches
no request naming "Dr A" (fixture for claim C8). -/
def dbNameMismatch : DB :=
  ⟨[], [⟨1, "Dr B", "S"⟩], [], [], [], 1, 1⟩

/-- A store holding one BOOKED appointment [10:00, 10:30) of day 0 for
the demo doctor (fixture for claims C4 and C6). -/
def dbOneBooked : DB :=
  ⟨[⟨1, "Ahmed", "+971500000001"⟩], [⟨1, "Dr Sarah", "General"⟩], [⟨1, 0, 540, 1020⟩],
   [⟨1, 1, 1, "Ahmed", "+971500000001", 600, 630, Status.BOOKED⟩], [], 2, 2⟩

/-- The booked appointment stored in `dbOneBooked`. -/
def bookedAppt : Appointment :=
  ⟨1, 1, 1, "Ahmed", "+971500000001", 600, 630, Status.BOOKED⟩

/-- A store holding one CANCELLED appointment (fixture for claim C5). -/
def dbOneCancelled : DB :=
  ⟨[⟨1, "Ahmed", "+971500000001"⟩], [⟨1, "Dr Sarah", "General"⟩], [⟨1, 0, 540, 1020⟩],
   [⟨1, 1, 1, "Ahmed", "+971500000001", 600, 630, Status.CANCELLED⟩], [], 2, 2⟩

/-- The cancelled appointment stored in `dbOneCancelled`. -/
def cancelledAppt : Appointment :=
  ⟨1, 1, 1, "Ahmed", "+971500000001", 600, 630, Status.CANCELLED⟩

/-- C1. The claim says that for working window [09:00,17:00), one busy
interval [10:00,10:30) and duration 30, `buildFreeSlots` returns exactly
the slots [09:00,09:30) and [10:30,11:00). On this very input the source
instead raises `NameError`: line 51 reads the undefined name `busStart`
(the loop variable is `busyStart`) as soon as a busy interval starts
after the sweep cursor, so no slot list is ever produced. The spec's
algorithm (§4.4) is what the code computes once the typo is read as
`busyStart`, as `buildFreeSlotsSpec` shows on the same input. -/
theorem C1_buildFreeSlots_raises_on_gap :
    buildFreeSlots 540 1020 [(600, 630)] 30 =
      .error "NameError: name \x27busStart\x27 is not defined"
    ∧ buildFreeSlotsSpec 540 1020 [(600, 630)] 30 =
      [⟨540, 570⟩, ⟨630, 660⟩] := by
  constructor <;> rfl

/-- C2. `doctorHasConflict` returns true exactly when some appointment of
the same doctor with status BOOKED and an id different from the excluded
one satisfies the strict half-open overlap rule
`B.start < A.end ∧ A.start < B.end`; touching endpoints
(`B.end = A.start` or `A.end = B.start`) fail the strict inequalities and
therefore never count as a conflict. -/
theorem C2_doctorHasConflict_iff (db : DB) (doctorId : Nat) (s e : Int)
    (ex : Option Nat) :
    doctorHasConflict db doctorId s e ex = true ↔
      ∃ a ∈ db.appointments, a.doctorId = doctorId ∧ a.status = Status.BOOKED ∧
        (∀ i, ex = some i → a.id ≠ i) ∧ a.startTime < e ∧ s < a.endTime := by
  unfold doctorHasConflict
  cases ex with
  | none =>
    simp [List.any_eq_true, and_assoc, gt_iff_lt]
  | some i =>
    simp [List.any_eq_true, and_assoc, gt_iff_lt]
    constructor
    · rintro ⟨a, ha, h1, h2, h3, h4, h5⟩
      exact ⟨a, ha, h1, h2, h5, h3, h4⟩
    · rintro ⟨a, ha, h1, h2, h5, h3, h4⟩
      exact ⟨a, ha, h1, h2, h3, h4, h5⟩

/-- `bookAppointmentLogic` either succeeds or leaves the store untouched. -/
theorem book_state_cases (args : BookArgs) (db : DB) :
    (∃ p, (bookAppointmentLogic args db).1 = ApiResult.success p) ∨
      (bookAppointmentLogic args db).2 = db := by
  unfold bookAppointmentLogic
  repeat
    first
      | exact Or.inl ⟨_, rfl⟩
      | exact Or.inr rfl
      | split
      | dsimp only

/-- `cancelAppointmentLogic` on an error result leaves the store untouched. -/
theorem cancel_state_cases (args : CancelArgs) (db : DB) :
    (∃ p, (cancelAppointmentLogic args db).1 = ApiResult.success p) ∨
      (cancelAppointmentLogic args db).2 = db := by
  unfold cancelAppointmentLogic
  repeat
    first
      | exact Or.inl ⟨_, rfl⟩
      | exact Or.inr rfl
      | split
      | dsimp only

/-- `rescheduleAppointmentLogic` either succeeds or leaves the store
untouched. -/
theorem reschedule_state_cases (args : RescheduleArgs) (db : DB) :
    (∃ p, (rescheduleAppointmentLogic args db).1 = ApiResult.success p) ∨
      (rescheduleAppointmentLogic args db).2 = db := by
  unfold rescheduleAppointmentLogic
  repeat
    first
      | exact Or.inl ⟨_, rfl⟩
      | exact Or.inr rfl
      | split
      | dsimp only

/-- `getAvailableSlotsLogic` either succeeds or leaves the store
untouched. -/
theorem slots_state_cases (args : SlotsArgs) (db : DB) :
    (∃ p, (getAvailableSlotsLogic args db).1 = ApiResult.success p) ∨
      (getAvailableSlotsLogic args db).2 = db := by
  unfold getAvailableSlotsLogic
  repeat
    first
      | exact Or.inl ⟨_, rfl⟩
      | exact Or.inr rfl
      | split
      | dsimp only

/-- C3. Every error return (`success = false`) of book, cancel,
reschedule, or getAvailableSlots leaves the persistent state (patients,
doctors, working hours, appointments, audit log, id counters) exactly as
it was: in the source every `{"success": False, ...}` return happens
before any write. -/
theorem C3_failure_leaves_state_unchanged (db : DB) :
    (∀ (args : BookArgs) (e : ApiError),
        (bookAppointmentLogic args db).1 = ApiResult.failure e →
        (bookAppointmentLogic args db).2 = db)
  ∧ (∀ (args : CancelArgs) (e : ApiError),
        (cancelAppointmentLogic args db).1 = ApiResult.failure e →
        (cancelAppointmentLogic args db).2 = db)
  ∧ (∀ (args : RescheduleArgs) (e : ApiError),
        (rescheduleAppointmentLogic args db).1 = ApiResult.failure e →
        (rescheduleAppointmentLogic args db).2 = db)
  ∧ (∀ (args : SlotsArgs) (e : ApiError),
        (getAvailableSlotsLogic args db).1 = ApiResult.failure e →
        (getAvailableSlotsLogic args db).2 = db) := by
  refine ⟨?_, ?_, ?_, ?_⟩ <;> intro args e h
  · rcases book_state_cases args db with ⟨p, hp⟩ | hdb
    · rw [h] at hp; cases hp
    · exact hdb
  · rcases cancel_state_cases args db with ⟨p, hp⟩ | hdb
    · rw [h] at hp; cases hp
    · exact hdb
  · rcases reschedule_state_cases args db with ⟨p, hp⟩ | hdb
    · rw [h] at hp; cases hp
    · exact hdb
  · rcases slots_state_cases args db with ⟨p, hp⟩ | hdb
    · rw [h] at hp; cases hp
    · exact hdb

/-- Witness for C3: cancelling with a missing id fails and the demo
store is returned unchanged. -/
theorem C3_witness :
    (cancelAppointmentLogic ⟨none⟩ demoDB).2 = demoDB :=
  (C3_failure_leaves_state_unchanged demoDB).2.1 ⟨none⟩
    ApiError.appointmentIdRequired rfl

/-- `find?` by id still finds the row after an id-preserving conditional
update of that row. -/
theorem find?_map_update (l : List Appointment) (i : Nat) (a updated : Appointment)
    (hfind : l.find? (fun x => x.id == i) = some a) (hid : updated.id = a.id) :
    (l.map (fun x => if x.id == i then updated else x)).find?
      (fun x => x.id == i) = some updated := by
  induction l with
  | nil => simp at hfind
  | cons y ys ih =>
    rw [List.find?_cons] at hfind
    by_cases hy : (y.id == i) = true
    · simp only [hy] at hfind
      have hay : a = y := by injection hfind with h; exact h.symm
      subst hay
      have hu : (updated.id == i) = true := by rw [hid]; exact hy
      simp only [List.map_cons, hy, if_true, List.find?_cons, hu]
    · simp only [Bool.not_eq_true] at hy
      simp only [hy] at hfind
      simp only [List.map_cons, hy, Bool.false_eq_true, if_false, List.find?_cons]
      exact ih hfind

/-- C4. Cancel is idempotent: on an appointment already CANCELLED,
cancel returns success and the store is returned bit-for-bit unchanged
(no appointment write, no audit write); starting from a non-CANCELLED
appointment, the first cancel succeeds and appends exactly one CANCEL
audit entry, and a second cancel of the same id returns success while
leaving the state of the first call untouched, so the two calls append
exactly one CANCEL entry in total. -/
theorem C4_cancel_idempotent (db : DB) (a : Appointment)
    (hfind : db.appointments.find? (fun x => x.id == a.id) = some a)
    (h0 : a.id ≠ 0) :
    (a.status = Status.CANCELLED →
      cancelAppointmentLogic ⟨some a.id⟩ db =
        (ApiResult.success ⟨"Appointment already cancelled.", a.id⟩, db))
  ∧ (a.status ≠ Status.CANCELLED →
      (cancelAppointmentLogic ⟨some a.id⟩ db).1 =
        ApiResult.success ⟨"Appointment cancelled.", a.id⟩
      ∧ cancelAppointmentLogic ⟨some a.id⟩ (cancelAppointmentLogic ⟨some a.id⟩ db).2 =
          (ApiResult.success ⟨"Appointment already cancelled.", a.id⟩,
            (cancelAppointmentLogic ⟨some a.id⟩ db).2)
      ∧ ((cancelAppointmentLogic ⟨some a.id⟩ db).2.auditLogs.filter
            (fun l => l.actionType == ActionType.CANCEL)).length =
          (db.auditLogs.filter (fun l => l.actionType == ActionType.CANCEL)).length + 1) := by
  have h0' : (a.id == 0) = false := by simpa using h0
  constructor
  · intro hc
    simp [cancelAppointmentLogic, h0', hfind, hc]
  · intro hc
    have hcf : (a.status == Status.CANCELLED) = false := by
      simpa using hc
    have hfirst : cancelAppointmentLogic ⟨some a.id⟩ db =
        (ApiResult.success ⟨"Appointment cancelled.", a.id⟩,
          { db with
            appointments := db.appointments.map
              (fun x => if x.id == a.id then { a with status := Status.CANCELLED } else x),
            auditLogs := db.auditLogs ++
              [⟨ActionType.CANCEL, some a.id, some a.patientId, some a.doctorId⟩] }) := by
      simp [cancelAppointmentLogic, h0', hfind, hcf]
    refine ⟨by rw [hfirst], ?_, ?_⟩
    · rw [hfirst]
      have hfind2 := find?_map_update db.appointments a.id a
        { a with status := Status.CANCELLED } hfind rfl
      simp only [cancelAppointmentLogic, h0', Bool.false_eq_true, if_false, hfind2]
      simp
    · rw [hfirst]
      simp [List.filter_append]

/-- Witness for C4: cancelling the BOOKED appointment of `dbOneBooked`
succeeds. -/
theorem C4_witness :
    (cancelAppointmentLogic ⟨some 1⟩ dbOneBooked).1 =
      ApiResult.success ⟨"Appointment cancelled.", 1⟩ :=
  ((C4_cancel_idempotent dbOneBooked bookedAppt rfl (by decide)).2 (by decide)).1

/-- With id-distinct rows, membership plus id equality pins the row. -/
theorem mem_id_unique (l : List Appointment)
    (hids : (l.map Appointment.id).Nodup) (a b : Appointment)
    (ha : a ∈ l) (hb : b ∈ l) (hid : b.id = a.id) : b = a :=
  List.inj_on_of_nodup_map hids hb ha hid

/-- A successful `getOrCreatePatient` touches only the patient table. -/
theorem getOrCreatePatient_ok_state (db : DB) (n p : String) (pat : Patient) (db1 : DB)
    (h : getOrCreatePatient db n p = Except.ok (pat, db1)) :
    db1.appointments = db.appointments ∧ db1.nextAppointmentId = db.nextAppointmentId ∧
      db1.auditLogs = db.auditLogs := by
  unfold getOrCreatePatient at h
  split at h
  · dsimp only at h
    split at h
    · exact Except.noConfusion h
    · rw [Except.ok.injEq, Prod.mk.injEq] at h
      obtain ⟨h1, h2⟩ := h
      subst h2
      exact ⟨rfl, rfl, rfl⟩
  · cases hfind : List.find? (fun q => q.patientPhone == p) db.patients with
    | some q =>
      rw [hfind] at h
      dsimp only at h
      split at h
      all_goals
        rw [Except.ok.injEq, Prod.mk.injEq] at h
        obtain ⟨h1, h2⟩ := h
        subst h2
        exact ⟨rfl, rfl, rfl⟩
    | none =>
      rw [hfind] at h
      dsimp only at h
      rw [Except.ok.injEq, Prod.mk.injEq] at h
      obtain ⟨h1, h2⟩ := h
      subst h2
      exact ⟨rfl, rfl, rfl⟩

/-- The appointment table after `bookAppointmentLogic`: unchanged, or
extended by one fresh-id row. -/
theorem book_appts_cases (args : BookArgs) (db : DB) :
    (bookAppointmentLogic args db).2.appointments = db.appointments ∨
      ∃ newAppt : Appointment, newAppt.id = db.nextAppointmentId ∧
        (bookAppointmentLogic args db).2.appointments = db.appointments ++ [newAppt] := by
  unfold bookAppointmentLogic
  repeat
    first
      | exact Or.inl rfl
      | split
      | dsimp only
  rename_i x patient db1 hgoc hany hconf
  obtain ⟨h1, h2, _⟩ := getOrCreatePatient_ok_state _ _ _ _ _ hgoc
  rw [h1, h2]
  refine Or.inr ⟨_, ?_, rfl⟩
  rfl

/-- The appointment table after `cancelAppointmentLogic`: unchanged, or
a conditional one-row status update of a found non-cancelled row. -/
theorem cancel_appts_cases (args : CancelArgs) (db : DB) :
    (cancelAppointmentLogic args db).2.appointments = db.appointments ∨
      ∃ (i : Nat) (x : Appointment),
        db.appointments.find? (fun t => t.id == i) = some x ∧
        x.status ≠ Status.CANCELLED ∧
        (cancelAppointmentLogic args db).2.appointments =
          db.appointments.map
            (fun t => if t.id == i then { x with status := Status.CANCELLED } else t) := by
  unfold cancelAppointmentLogic
  repeat
    first
      | exact Or.inl rfl
      | split
      | dsimp only
  refine Or.inr ⟨_, _, ?_, ?_, rfl⟩
  · assumption
  · intro hx
    simp_all

/-- The appointment table after `rescheduleAppointmentLogic`: unchanged,
or a conditional one-row retiming of a found non-cancelled row. -/
theorem reschedule_appts_cases (args : RescheduleArgs) (db : DB) :
    (rescheduleAppointmentLogic args db).2.appointments = db.appointments ∨
      ∃ (i : Nat) (x : Appointment) (ns ne : Int),
        db.appointments.find? (fun t => t.id == i) = some x ∧
        x.status ≠ Status.CANCELLED ∧
        (rescheduleAppointmentLogic args db).2.appointments =
          db.appointments.map (fun t => if t.id == i then
            { x with startTime := ns, endTime := ne, status := Status.BOOKED } else t) := by
  unfold rescheduleAppointmentLogic
  repeat
    first
      | exact Or.inl rfl
      | split
      | dsimp only
  refine Or.inr ⟨_, _, _, _, ?_, ?_, rfl⟩
  · assumption
  · intro hx
    simp_all

/-- `getAvailableSlotsLogic` never writes to the appointment table. -/
theorem slots_appts_unchanged (args : SlotsArgs) (db : DB) :
    (getAvailableSlotsLogic args db).2.appointments = db.appointments := by
  unfold getAvailableSlotsLogic
  repeat
    first
      | rfl
      | split
      | dsimp only

/-- C5. CANCELLED is terminal: with well-formed ids (distinct, below the
auto-increment counter), a CANCELLED appointment record survives every
operation bit-for-bit (in particular its status stays CANCELLED) and
remains the only record bearing its id, so no reachable operation ever
transitions an appointment out of CANCELLED. -/
theorem C5_cancelled_terminal (db : DB)
    (hids : (db.appointments.map Appointment.id).Nodup)
    (hfresh : ∀ b ∈ db.appointments, b.id < db.nextAppointmentId)
    (a : Appointment) (ha : a ∈ db.appointments) (hc : a.status = Status.CANCELLED) :
    (∀ args : BookArgs,
        a ∈ (bookAppointmentLogic args db).2.appointments ∧
        ∀ b ∈ (bookAppointmentLogic args db).2.appointments, b.id = a.id → b = a)
  ∧ (∀ args : CancelArgs,
        a ∈ (cancelAppointmentLogic args db).2.appointments ∧
        ∀ b ∈ (cancelAppointmentLogic args db).2.appointments, b.id = a.id → b = a)
  ∧ (∀ args : RescheduleArgs,
        a ∈ (rescheduleAppointmentLogic args db).2.appointments ∧
        ∀ b ∈ (rescheduleAppointmentLogic args db).2.appointments, b.id = a.id → b = a)
  ∧ (∀ args : SlotsArgs,
        a ∈ (getAvailableSlotsLogic args db).2.appointments ∧
        ∀ b ∈ (getAvailableSlotsLogic args db).2.appointments, b.id = a.id → b = a) := by
  have base : ∀ b ∈ db.appointments, b.id = a.id → b = a :=
    fun b hb hbid => mem_id_unique _ hids a b ha hb hbid
  refine ⟨?_, ?_, ?_, ?_⟩
  · intro args
    rcases book_appts_cases args db with hsame | ⟨newAppt, hnid, happ⟩
    · rw [hsame]
      exact ⟨ha, base⟩
    · rw [happ]
      refine ⟨List.mem_append_left _ ha, ?_⟩
      intro b hb hbid
      rcases List.mem_append.mp hb with hb1 | hb2
      · exact base b hb1 hbid
      · exfalso
        have hbn : b = newAppt := List.mem_singleton.mp hb2
        have hlt := hfresh a ha
        rw [hbn, hnid] at hbid
        omega
  · intro args
    rcases cancel_appts_cases args db with hsame | ⟨i, x, hfind, hxs, hmap⟩
    · rw [hsame]
      exact ⟨ha, base⟩
    · have hxmem : x ∈ db.appointments := List.mem_of_find?_eq_some hfind
      have hxid : x.id = i := by simpa using List.find?_some hfind
      have hai : a.id ≠ i := by
        intro hai
        have hxa : x = a := mem_id_unique _ hids a x ha hxmem (by rw [hxid, hai])
        rw [hxa] at hxs
        exact hxs hc
      have haif : (a.id == i) = false := by simpa using hai
      rw [hmap]
      refine ⟨List.mem_map.mpr ⟨a, ha, by simp [haif]⟩, ?_⟩
      intro b hb hbid
      rcases List.mem_map.mp hb with ⟨c, hc1, hc2⟩
      by_cases hci : (c.id == i) = true
      · exfalso
        rw [if_pos hci] at hc2
        have hbx : b.id = x.id := by rw [← hc2]
        apply hai
        rw [← hbid, hbx, hxid]
      · rw [if_neg hci] at hc2
        subst hc2
        exact base c hc1 hbid
  · intro args
    rcases reschedule_appts_cases args db with hsame | ⟨i, x, ns, ne, hfind, hxs, hmap⟩
    · rw [hsame]
      exact ⟨ha, base⟩
    · have hxmem : x ∈ db.appointments := List.mem_of_find?_eq_some hfind
      have hxid : x.id = i := by simpa using List.find?_some hfind
      have hai : a.id ≠ i := by
        intro hai
        have hxa : x = a := mem_id_unique _ hids a x ha hxmem (by rw [hxid, hai])
        rw [hxa] at hxs
        exact hxs hc
      have haif : (a.id == i) = false := by simpa using hai
      rw [hmap]
      refine ⟨List.mem_map.mpr ⟨a, ha, by simp [haif]⟩, ?_⟩
      intro b hb hbid
      rcases List.mem_map.mp hb with ⟨c, hc1, hc2⟩
      by_cases hci : (c.id == i) = true
      · exfalso
        rw [if_pos hci] at hc2
        have hbx : b.id = x.id := by rw [← hc2]
        apply hai
        rw [← hbid, hbx, hxid]
      · rw [if_neg hci] at hc2
        subst hc2
        exact base c hc1 hbid
  · intro args
    rw [slots_appts_unchanged]
    exact ⟨ha, base⟩

/-- Witness for C5: rescheduling the CANCELLED appointment of
`dbOneCancelled` leaves its record in place. -/
theorem C5_witness :
    cancelledAppt ∈
      (rescheduleAppointmentLogic ⟨some 1, TimeArg.valid 615, none⟩
        dbOneCancelled).2.appointments :=
  ((C5_cancelled_terminal dbOneCancelled (by decide) (by decide) cancelledAppt
      (by decide) rfl).2.2.1 ⟨some 1, TimeArg.valid 615, none⟩).1

/-- C6. Reschedule passes `ignoreAppointmentId = appointment.id` to the
conflict detector, so the appointment's own current interval can never
block the move: whenever the new interval lies inside a working interval
and no OTHER booked appointment of the doctor overlaps it, the
reschedule succeeds — in particular moving [10:00,10:30) to the
self-overlapping [10:15,10:45) succeeds (see `C6_witness`). -/
theorem C6_reschedule_excludes_self (db : DB) (a : Appointment)
    (hfind : db.appointments.find? (fun x => x.id == a.id) = some a)
    (h0 : a.id ≠ 0) (hnc : a.status ≠ Status.CANCELLED)
    (newStart : Int) (dur : Option Int) (ws : List (Int × Int))
    (hw : getWorkingWindowForDoctor db a.doctorId (dateOf newStart) = some ws)
    (hin : ws.any (fun iv => decide (newStart ≥ iv.1) &&
        decide (newStart + dur.getD 30 ≤ iv.2)) = true)
    (hother : ∀ b ∈ db.appointments, b.doctorId = a.doctorId →
        b.status = Status.BOOKED → b.id ≠ a.id →
        ¬(b.startTime < newStart + dur.getD 30 ∧ newStart < b.endTime)) :
    (rescheduleAppointmentLogic ⟨some a.id, TimeArg.valid newStart, dur⟩ db).1 =
      ApiResult.success ⟨"Appointment rescheduled.", a.id, newStart,
        newStart + dur.getD 30, a.doctorId,
        ((db.doctors.find? (fun d => d.id == a.doctorId)).map Doctor.name).getD ""⟩ := by
  have h0' : (a.id == 0) = false := by simpa using h0
  have hncf : (a.status == Status.CANCELLED) = false := by simpa using hnc
  have hconf : doctorHasConflict db a.doctorId newStart (newStart + dur.getD 30)
      (some a.id) = false := by
    unfold doctorHasConflict
    rw [List.any_eq_false]
    intro b hb hcontra
    simp only [Bool.and_eq_true, decide_eq_true_eq, beq_iff_eq, bne_iff_ne,
      gt_iff_lt] at hcontra
    obtain ⟨⟨⟨⟨hdoc, hstat⟩, hlt1⟩, hlt2⟩, hne⟩ := hcontra
    exact hother b hb hdoc hstat hne ⟨hlt1, hlt2⟩
  simp only [rescheduleAppointmentLogic, h0', Bool.or_self, Bool.false_eq_true,
    if_false, hfind, hncf, hw, hin, Bool.not_true, hconf]
  simp

/-- Witness for C6: the booked [10:00,10:30) appointment of `dbOneBooked`
is rescheduled to the self-overlapping [10:15,10:45) successfully. -/
theorem C6_witness :
    (rescheduleAppointmentLogic ⟨some 1, TimeArg.valid 615, some 30⟩ dbOneBooked).1 =
      ApiResult.success ⟨"Appointment rescheduled.", 1, 615, 645, 1, "Dr Sarah"⟩ :=
  C6_reschedule_excludes_self dbOneBooked bookedAppt rfl (by decide) (by decide)
    615 (some 30) [(540, 1020)] rfl (by decide) (by decide)

/-- C7. With the doctor resolved and a working window found for the
requested date, book fails with the outside-working-hours error exactly
when the requested interval `[t, t + duration)` is contained in no single
working interval (containment uses `start ≥ dayStart ∧ end ≤ dayEnd`, so
an interval ending exactly at the window end passes). -/
theorem C7_book_outside_hours_iff (db : DB) (args : BookArgs)
    (hname : args.patientName ≠ "") (t : Int) (ht : args.startTime = TimeArg.valid t)
    (doctor : Doctor) (hd : pickDoctor db args.doctorName args.specialty = some doctor)
    (ws : List (Int × Int))
    (hw : getWorkingWindowForDoctor db doctor.id (dateOf t) = some ws) :
    (bookAppointmentLogic args db).1 = ApiResult.failure ApiError.outsideHours ↔
      ¬ ∃ iv ∈ ws, iv.1 ≤ t ∧ t + args.durationMinutes.getD 30 ≤ iv.2 := by
  have hiff : (∃ iv ∈ ws, iv.1 ≤ t ∧ t + args.durationMinutes.getD 30 ≤ iv.2) ↔
      (ws.any (fun iv => decide (t ≥ iv.1) &&
        decide (t + args.durationMinutes.getD 30 ≤ iv.2))) = true := by
    simp [List.any_eq_true, ge_iff_le]
  unfold bookAppointmentLogic
  rw [if_neg hname, ht]
  dsimp only
  rw [hd]
  dsimp only
  rw [hw]
  dsimp only
  by_cases hany : (ws.any (fun iv => decide (t ≥ iv.1) &&
      decide (t + args.durationMinutes.getD 30 ≤ iv.2))) = true
  · rw [hany]
    simp only [Bool.not_true, Bool.false_eq_true, if_false]
    constructor
    · intro hL
      exfalso
      split at hL
      · simp at hL
      · split at hL <;> simp at hL
    · intro hR
      exact ((hR (hiff.mpr hany)).elim)
  · have hanyf : (ws.any (fun iv => decide (t ≥ iv.1) &&
        decide (t + args.durationMinutes.getD 30 ≤ iv.2))) = false := by
      simpa using hany
    rw [hanyf]
    simp only [Bool.not_false, if_true]
    constructor
    · intro _ hex
      exact hany (hiff.mp hex)
    · intro _
      trivial

/-- Witness for C7: in the demo store, booking [16:45,17:15) across the
17:00 boundary is rejected as outside working hours. -/
theorem C7_witness :
    (bookAppointmentLogic ⟨"Ahmed", "+971500000001", "Dr Sarah", "", TimeArg.valid 1005,
        none⟩ demoDB).1 = ApiResult.failure ApiError.outsideHours :=
  (C7_book_outside_hours_iff demoDB
      ⟨"Ahmed", "+971500000001", "Dr Sarah", "", TimeArg.valid 1005, none⟩
      (by decide) 1005 rfl ⟨1, "Dr Sarah", "General"⟩
      rfl [(540, 1020)] rfl).mpr (by decide)

/-- C8 counterexample. With only the doctor ⟨"Dr B","S"⟩ registered and a
request naming doctorName "Dr A" with specialty "S", the claim's
procedure resolves no doctor, so by the claim the operation must fail
with the not-found error; the source's `pickDoctor` instead falls
through to the specialty-only match, returns Dr B, and book proceeds to
fail with the not-working error instead. -/
theorem C8_counterexample :
    pickDoctorClaimed dbNameMismatch "Dr A" "S" = none
    ∧ pickDoctor dbNameMismatch "Dr A" "S" = some ⟨1, "Dr B", "S"⟩
    ∧ (bookAppointmentLogic ⟨"x", "", "Dr A", "S", TimeArg.valid 600, none⟩
        dbNameMismatch).1 = ApiResult.failure ApiError.notWorking :=
  ⟨rfl, rfl, rfl⟩

/-- C8 amended. Doctor resolution proceeds as: with both name and
specialty given, the first exact (name, specialty) match, falling back to
the first specialty-only match when the exact match is empty; with only a
name, the first name match; with only a specialty, the first specialty
match; and book / getAvailableSlots fail with the not-found error
precisely when this procedure (`pickDoctorAmended` = the source's
`pickDoctor`) yields no doctor. -/
theorem C8_pickDoctor_amended (db : DB) :
    (∀ doctorName specialty, pickDoctor db doctorName specialty =
        pickDoctorAmended db doctorName specialty)
  ∧ (∀ (args : BookArgs) (t : Int), args.patientName ≠ "" →
        args.startTime = TimeArg.valid t →
        ((bookAppointmentLogic args db).1 =
            ApiResult.failure (ApiError.doctorNotFound args.doctorName args.specialty) ↔
          pickDoctor db args.doctorName args.specialty = none))
  ∧ (∀ (args : SlotsArgs) (d : Int), args.date = TimeArg.valid d →
        ((getAvailableSlotsLogic args db).1 =
            ApiResult.failure (ApiError.doctorNotFound args.doctorName args.specialty) ↔
          pickDoctor db args.doctorName args.specialty = none)) := by
  refine ⟨?_, ?_, ?_⟩
  · intro doctorName specialty
    unfold pickDoctor pickDoctorAmended
    by_cases hn : doctorName = ""
    · simp [hn]
    · by_cases hs : specialty = ""
      · simp [hn, hs]
        generalize (List.find? (fun d => d.name == doctorName) db.doctors) = o
        cases o <;> rfl
      · simp [hn, hs]
  · intro args t hname ht
    unfold bookAppointmentLogic
    rw [if_neg hname, ht]
    dsimp only
    cases hpd : pickDoctor db args.doctorName args.specialty with
    | none =>
      dsimp only
      exact ⟨fun _ => rfl, fun _ => rfl⟩
    | some doctor =>
      dsimp only
      constructor
      · intro hL
        exfalso
        repeat'
          first
            | (simp at hL)
            | (split at hL)
      · intro hR
        exact Option.noConfusion hR
  · intro args d hd
    unfold getAvailableSlotsLogic
    rw [hd]
    dsimp only
    cases hpd : pickDoctor db args.doctorName args.specialty with
    | none =>
      dsimp only
      exact ⟨fun _ => rfl, fun _ => rfl⟩
    | some doctor =>
      dsimp only
      constructor
      · intro hL
        exfalso
        repeat'
          first
            | (simp at hL)
            | (split at hL)
      · intro hR
        exact Option.noConfusion hR

/-- Witness for C8 amended: requesting the unregistered specialty "Nope"
fails with the not-found error. -/
theorem C8_witness :
    (bookAppointmentLogic ⟨"x", "", "", "Nope", TimeArg.valid 600, none⟩
        dbNameMismatch).1 = ApiResult.failure (ApiError.doctorNotFound "" "Nope") :=
  ((C8_pickDoctor_amended dbNameMismatch).2.1
      ⟨"x", "", "", "Nope", TimeArg.valid 600, none⟩ 600 (by decide) rfl).mpr rfl

theorem book_success_shape (args : BookArgs) (db : DB) (r : ApiResult BookPayload)
    (db2 : DB) (h : bookAppointmentLogic args db = (r, db2)) (p : BookPayload)
    (hr : r = ApiResult.success p) :
    p.endTime = p.startTime + args.durationMinutes.getD 30 ∧
    ∃ appt : Appointment, db2.appointments = db.appointments ++ [appt] ∧
      appt.startTime = p.startTime ∧ appt.endTime = p.endTime := by
  subst hr
  unfold bookAppointmentLogic at h
  repeat'
    first
      | split at h
      | dsimp only at h
  all_goals (rw [Prod.mk.injEq] at h; obtain ⟨h1, h2⟩ := h)
  all_goals
    first
      | exact ApiResult.noConfusion h1
      | skip
  rename_i x patient db1 hgoc hany hconf
  rename_i hpn xt t hts xd doctor hpd xw ws hww
  rw [ApiResult.success.injEq] at h1
  subst h1
  subst h2
  obtain ⟨ha1, ha2, _⟩ := getOrCreatePatient_ok_state _ _ _ _ _ hgoc
  refine ⟨rfl, ⟨⟨db1.nextAppointmentId, patient.id, doctor.id, patient.patientName,
    patient.patientPhone, t, t + args.durationMinutes.getD 30, Status.BOOKED⟩,
    ?_, rfl, rfl⟩⟩
  dsimp only
  rw [ha1]

theorem reschedule_success_shape (args : RescheduleArgs) (db : DB)
    (r : ApiResult ReschedulePayload) (db2 : DB)
    (h : rescheduleAppointmentLogic args db = (r, db2)) (p : ReschedulePayload)
    (hr : r = ApiResult.success p) :
    p.newEndTime = p.newStartTime + args.durationMinutes.getD 30 ∧
    ∃ appt ∈ db2.appointments, appt.id = p.appointmentId ∧
      appt.startTime = p.newStartTime ∧ appt.endTime = p.newEndTime := by
  subst hr
  unfold rescheduleAppointmentLogic at h
  repeat'
    first
      | split at h
      | dsimp only at h
  all_goals (rw [Prod.mk.injEq] at h; obtain ⟨h1, h2⟩ := h)
  all_goals
    first
      | exact ApiResult.noConfusion h1
      | skip
  rename_i hmf ign i hidsome xo appointment hfind xt t htv hstat xw ws hww hany hconf
  rw [ApiResult.success.injEq] at h1
  subst h1
  subst h2
  have hxmem : appointment ∈ db.appointments := List.mem_of_find?_eq_some hfind
  have hxid : (appointment.id == i) = true := by
    simpa using List.find?_some hfind
  refine ⟨rfl, ⟨⟨appointment.id, appointment.patientId, appointment.doctorId, appointment.patientName, appointment.patientPhone, t, t + args.durationMinutes.getD 30, Status.BOOKED⟩, ?_, rfl, rfl, rfl⟩⟩
  dsimp only
  exact List.mem_map.mpr ⟨appointment, hxmem, by rw [if_pos hxid]⟩

/-- C9 counterexample. The operations accept `durationMinutes = 0` (the
`int(...)` conversion succeeds and no positivity check exists), and a
booking with duration 0 succeeds, creating an appointment with
`startTime = endTime` — violating the claimed invariant
`startTime < endTime`. -/
theorem C9_counterexample :
    (bookAppointmentLogic ⟨"x", "p", "Dr Sarah", "", TimeArg.valid 600, some 0⟩
        demoDB).1 =
      ApiResult.success
        ⟨"Appointment booked successfully.", 1, 1, 1, "Dr Sarah", "General", 600, 600⟩
    ∧ ∃ a ∈ (bookAppointmentLogic ⟨"x", "p", "Dr Sarah", "", TimeArg.valid 600, some 0⟩
        demoDB).2.appointments, ¬(a.startTime < a.endTime) := by
  constructor
  · rfl
  · decide

/-- C9 amended. For every accepted duration that is at least 1 minute
(in particular the default 30), the invariant holds: a successful book
appends exactly one appointment with `startTime < endTime`, and a
successful reschedule reports and stores an interval with
`newStartTime < newEndTime`. -/
theorem C9_amended (db : DB) :
    (∀ (args : BookArgs) (p : BookPayload), 1 ≤ args.durationMinutes.getD 30 →
        (bookAppointmentLogic args db).1 = ApiResult.success p →
        ∃ appt : Appointment, (bookAppointmentLogic args db).2.appointments =
            db.appointments ++ [appt] ∧ appt.startTime < appt.endTime)
  ∧ (∀ (args : RescheduleArgs) (p : ReschedulePayload),
        1 ≤ args.durationMinutes.getD 30 →
        (rescheduleAppointmentLogic args db).1 = ApiResult.success p →
        p.newStartTime < p.newEndTime ∧
        ∃ appt ∈ (rescheduleAppointmentLogic args db).2.appointments,
          appt.id = p.appointmentId ∧ appt.startTime = p.newStartTime ∧
          appt.endTime = p.newEndTime) := by
  constructor
  · intro args p hdur hs
    obtain ⟨hpe, appt, happ, has, hae⟩ :=
      book_success_shape args db (bookAppointmentLogic args db).1
        (bookAppointmentLogic args db).2 rfl p hs
    refine ⟨appt, happ, ?_⟩
    rw [has, hae, hpe]
    omega
  · intro args p hdur hs
    obtain ⟨hpe, hex⟩ :=
      reschedule_success_shape args db (rescheduleAppointmentLogic args db).1
        (rescheduleAppointmentLogic args db).2 rfl p hs
    refine ⟨?_, hex⟩
    rw [hpe]
    omega

/-- Witness for C9 amended: the default 30-minute booking in the demo
store appends one appointment with a strictly positive interval. -/
theorem C9_witness :
    ∃ appt : Appointment,
      (bookAppointmentLogic ⟨"x", "p", "Dr Sarah", "", TimeArg.valid 600, none⟩
          demoDB).2.appointments = demoDB.appointments ++ [appt] ∧
      appt.startTime < appt.endTime :=
  (C9_amended demoDB).1 ⟨"x", "p", "Dr Sarah", "", TimeArg.valid 600, none⟩
    ⟨"Appointment booked successfully.", 1, 1, 1, "Dr Sarah", "General", 600, 630⟩
    (by decide) rfl

/-- A phoneless `getOrCreatePatient` that returns (rather than raising
`IntegrityError`) has inserted exactly one fresh patient whose phone is
the placeholder `"UNKNOWN-" ++ name`. -/
theorem getOrCreatePatient_phoneless (db : DB) (n ph : String) (pat : Patient)
    (db2 : DB) (hph : ph = "")
    (h : getOrCreatePatient db n ph = Except.ok (pat, db2)) :
    pat.patientPhone = "UNKNOWN-" ++ n ∧ pat.patientName = n ∧
      db2.patients = db.patients ++ [pat] := by
  subst hph
  unfold getOrCreatePatient at h
  rw [if_pos rfl] at h
  dsimp only at h
  split at h
  · exact Except.noConfusion h
  · rw [Except.ok.injEq, Prod.mk.injEq] at h
    obtain ⟨h1, h2⟩ := h
    subst h1
    subst h2
    exact ⟨rfl, rfl, rfl⟩

/-- A successful phoneless booking creates its own fresh patient row with
the placeholder phone. -/
theorem book_success_patients (args : BookArgs) (db : DB)
    (r : ApiResult BookPayload) (db2 : DB)
    (h : bookAppointmentLogic args db = (r, db2)) (p : BookPayload)
    (hr : r = ApiResult.success p) (hph : args.patientPhone = "") :
    ∃ pat : Patient, db2.patients = db.patients ++ [pat] ∧
      pat.patientPhone = "UNKNOWN-" ++ args.patientName ∧
      pat.patientName = args.patientName := by
  subst hr
  unfold bookAppointmentLogic at h
  repeat'
    first
      | split at h
      | dsimp only at h
  all_goals (rw [Prod.mk.injEq] at h; obtain ⟨h1, h2⟩ := h)
  all_goals
    first
      | exact ApiResult.noConfusion h1
      | skip
  rename_i x patient db1 hgoc hany hconf
  rw [hph] at hgoc
  obtain ⟨hp1, hp2, hp3⟩ := getOrCreatePatient_phoneless db args.patientName "" patient
    db1 rfl hgoc
  subst h2
  refine ⟨patient, ?_, hp1, hp2⟩
  dsimp only
  rw [hp3]

/-- C10 counterexample. Two phoneless bookings with the SAME patient name
("Zed", at 10:00 and 11:40 so no scheduling conflict intervenes): the
first succeeds, but the second crashes with `IntegrityError` — the
placeholder phone `UNKNOWN-Zed` is deterministic per name and
`Patient.patientPhone` is a unique column — contradicting the claim that
the second phoneless booking never fails or crashes even with the same
patient name. -/
theorem C10_counterexample :
    (∃ p, (bookAppointmentLogic ⟨"Zed", "", "Dr Sarah", "", TimeArg.valid 600, none⟩
        demoDB).1 = ApiResult.success p)
    ∧ (bookAppointmentLogic ⟨"Zed", "", "Dr Sarah", "", TimeArg.valid 700, none⟩
        (bookAppointmentLogic ⟨"Zed", "", "Dr Sarah", "", TimeArg.valid 600, none⟩
          demoDB).2).1 =
      ApiResult.exn
        "IntegrityError: UNIQUE constraint failed: retellAPI_patient.patientPhone" :=
  ⟨⟨_, rfl⟩, rfl⟩

/-- C10 amended. A phoneless booking synthesizes the placeholder phone
`"UNKNOWN-" ++ patientName` and creates its own Patient row on every
success, permitting duplicate "unknown" patients across bookings with
DIFFERENT names: distinct names give distinct placeholder phones, and a
phoneless patient creation succeeds precisely while no stored patient
already carries that placeholder — so a second phoneless booking with
the same patient name hits the unique-phone constraint (IntegrityError)
instead of succeeding. -/
theorem C10_phoneless_placeholder (db : DB) :
    (∀ (n ph : String) (pat : Patient) (db2 : DB), ph = "" →
        getOrCreatePatient db n ph = Except.ok (pat, db2) →
        pat.patientPhone = "UNKNOWN-" ++ n ∧ pat.patientName = n ∧
          db2.patients = db.patients ++ [pat])
  ∧ (∀ n : String, (∀ q ∈ db.patients, q.patientPhone ≠ "UNKNOWN-" ++ n) →
        ∃ pat db2, getOrCreatePatient db n "" = Except.ok (pat, db2))
  ∧ (∀ n1 n2 : String, n1 ≠ n2 → "UNKNOWN-" ++ n1 ≠ "UNKNOWN-" ++ n2)
  ∧ (∀ (args : BookArgs) (p : BookPayload), args.patientPhone = "" →
        (bookAppointmentLogic args db).1 = ApiResult.success p →
        ∃ pat : Patient, (bookAppointmentLogic args db).2.patients =
            db.patients ++ [pat] ∧
          pat.patientPhone = "UNKNOWN-" ++ args.patientName ∧
          pat.patientName = args.patientName) := by
  refine ⟨?_, ?_, ?_, ?_⟩
  · intro n ph pat db2 hph h
    exact getOrCreatePatient_phoneless db n ph pat db2 hph h
  · intro n hfresh
    have hany : (db.patients.any fun q => q.patientPhone == "UNKNOWN-" ++ n) = false := by
      rw [List.any_eq_false]
      intro q hq
      simpa using hfresh q hq
    unfold getOrCreatePatient
    rw [if_pos rfl]
    dsimp only
    rw [hany]
    simp only [Bool.false_eq_true, if_false]
    exact ⟨_, _, rfl⟩
  · intro n1 n2 hne hc
    apply hne
    have hd := congrArg String.data hc
    rw [String.data_append, String.data_append] at hd
    exact String.ext (List.append_cancel_left hd)
  · intro args p hph hs
    exact book_success_patients args db (bookAppointmentLogic args db).1
      (bookAppointmentLogic args db).2 rfl p hs hph

/-- Witness for C10 amended: with the demo store (no patients yet), the
phoneless creation for "Zed" succeeds. -/
theorem C10_witness :
    ∃ pat db2, getOrCreatePatient demoDB "Zed" "" = Except.ok (pat, db2) :=
  (C10_phoneless_placeholder demoDB).2.1 "Zed" (by decide)
